import Mathlib

/-!
Verification of the Bond_Fabric chaincodes (BondToken, Compliance,
CorporateAction) against their natural-language specification.

Each chaincode runs against a ledger that maps string keys to JSON blobs
(`GetState` / `PutState` on the Fabric stub).  Each chaincode has its own
namespace, so a module's state is embedded as an association list from
string keys to the typed records the module may store there.  Within one
module different record kinds share the key namespace, exactly as in the
source (e.g. Bond records at key `bondID` and TokenHolder records at key
`address_bondID`).  Go's `json.Unmarshal` into a struct of the "wrong"
kind succeeds, filling only the fields whose JSON tags coincide and
zeroing the rest; the `decode...` functions below reproduce that.

Wall-clock reads (`time.Now()`) are modelled by an explicit `now : Nat`
parameter, the stub transaction id by an explicit `txid : String`
parameter, and `time.Now().Format("20060102")` (used to synthesize
coupon / redemption ids) by an explicit `todayTag : String` parameter.
`float64` quantities are modelled by `Rat`; every concrete value a claim
mentions (1000.0, 5.0, 3.5, 50.0, 175.0, ...) is exactly representable in
binary64 and the cited operations on them are exact, so the rational
model agrees with the Go float64 computation at those points.
Event emission (`SetEvent`) never fails in the model and events are not
part of the committed state, so they are not recorded.
-/

deriving instance DecidableEq for Except

/-- Ledger lookup: Go's `GetState` returns nil for an absent key. -/
def getKey {V : Type} (s : List (String × V)) (k : String) : Option V :=
  match s with
  | [] => none
  | (k', v) :: rest => if k' = k then some v else getKey rest k

/-- Ledger write: Go's `PutState` overwrites any existing value at the key. -/
def setKey {V : Type} (s : List (String × V)) (k : String) (v : V) :
    List (String × V) :=
  (s.filter (fun e => e.1 != k)) ++ [(k, v)]

/-- A failed chaincode invocation is not committed: the ledger keeps its
pre-invocation state.  (Substrate semantics, spec section 5/7.) -/
def commit {V : Type} {E : Type} (s : List (String × V))
    (r : Except E (List (String × V))) : List (String × V) :=
  match r with
  | .ok s' => s'
  | .error _ => s

/-- A calendar date, the result of Go's `time.Parse("2006-01-02", s)`. -/
structure Date where
  year : Nat
  month : Nat
  day : Nat
deriving DecidableEq, Repr

/-- Go's zero `time.Time` is January 1 of year 1. -/
def zeroDate : Date := ⟨1, 1, 1⟩

def isLeapYear (y : Nat) : Bool :=
  y % 4 == 0 && (y % 100 != 0 || y % 400 == 0)

def daysInMonth (year month : Nat) : Nat :=
  if month == 2 then (if isLeapYear year then 29 else 28)
  else if month == 4 || month == 6 || month == 9 || month == 11 then 30
  else 31

/-- Go's `time.Parse` with layout `2006-01-02`: exactly four year digits,
a dash, two month digits, a dash, two day digits, with month and
day-of-month range checks (leap years included). -/
def parseDate (str : String) : Option Date :=
  match str.toList with
  | [a, b, c, d, s1, e, f, s2, g, i] =>
    if a.isDigit && b.isDigit && c.isDigit && d.isDigit && s1 == '-' &&
       e.isDigit && f.isDigit && s2 == '-' && g.isDigit && i.isDigit then
      let year := (a.toNat - 48) * 1000 + (b.toNat - 48) * 100 +
                  (c.toNat - 48) * 10 + (d.toNat - 48)
      let month := (e.toNat - 48) * 10 + (f.toNat - 48)
      let day := (g.toNat - 48) * 10 + (i.toNat - 48)
      if 1 ≤ month && month ≤ 12 && 1 ≤ day && day ≤ daysInMonth year month
      then some ⟨year, month, day⟩
      else none
    else none
  | _ => none

namespace BondToken

/-- `Bond` struct of the BondToken chaincode. -/
structure Bond where
  id : String
  issuerId : String
  issuerName : String
  faceValue : Rat
  couponRate : Rat
  maturityDate : Date
  issueDate : Nat
  totalSupply : Int
  availableSupply : Int
  status : String
  currency : String
  isin : String
  rating : String
  collateral : String
deriving DecidableEq, Repr

/-- `TokenHolder` struct of the BondToken chaincode. -/
structure TokenHolder where
  address : String
  bondId : String
  quantity : Int
  lastUpdated : Nat
  metadata : List (String × String)
deriving DecidableEq, Repr

/-- A value stored in the BondToken chaincode's namespace: the code puts
Bond records at key `bondID` and TokenHolder records at `address_bondID`. -/
inductive BTVal where
  | bond (b : Bond)
  | holder (h : TokenHolder)
deriving DecidableEq, Repr

abbrev BTState := List (String × BTVal)

/-- Error taxonomy of the BondToken operations (one constructor per
distinct early-return `fmt.Errorf` site reachable in the model). -/
inductive BTErr where
  | alreadyExists
  | invalidDate
  | bondNotFound
  | nonPositiveQuantity
  | senderNotFound
  | insufficientBalance
deriving DecidableEq, Repr

/-- `BondExists`: true iff `GetState(bondID)` returns any bytes (a
TokenHolder blob stored at that key would also count, as in the source). -/
def BondExists (s : BTState) (bondID : String) : Bool :=
  (getKey s bondID).isSome

/-- `json.Unmarshal` of a stored blob into `TokenHolder`.  A holder blob
decodes to itself; a Bond blob has no JSON field in common with
TokenHolder, so it decodes without error to the zero-valued holder. -/
def decodeHolder : BTVal → TokenHolder
  | .holder h => h
  | .bond _ => ⟨"", "", 0, 0, []⟩

/-- `GetTokenHolder`: errors (`none`) only when the key is absent;
any stored blob unmarshals successfully. -/
def GetTokenHolder (s : BTState) (holderKey : String) : Option TokenHolder :=
  (getKey s holderKey).map decodeHolder

/-- `GetBalance`: returns 0 instead of an error when the holder record is
missing. -/
def GetBalance (s : BTState) (address bondID : String) : Int :=
  match GetTokenHolder s (address ++ "_" ++ bondID) with
  | none => 0
  | some h => h.quantity

/-- `IssueBond`: rejects an already-populated bond key and an unparsable
maturity date, then stores the Bond record (availableSupply = totalSupply,
status ACTIVE) and emits a BondIssued event.  Note: the source writes no
TokenHolder record for the issuer. -/
def IssueBond (s : BTState)
    (bondID issuerID issuerName currency isin rating collateral : String)
    (faceValue couponRate : Rat) (totalSupply : Int)
    (maturityDateStr : String) (now : Nat) : Except BTErr BTState :=
  if BondExists s bondID then .error .alreadyExists
  else
    match parseDate maturityDateStr with
    | none => .error .invalidDate
    | some maturityDate =>
      .ok (setKey s bondID (.bond
        { id := bondID
          issuerId := issuerID
          issuerName := issuerName
          faceValue := faceValue
          couponRate := couponRate
          maturityDate := maturityDate
          issueDate := now
          totalSupply := totalSupply
          availableSupply := totalSupply
          status := "ACTIVE"
          currency := currency
          isin := isin
          rating := rating
          collateral := collateral }))

/-- `Transfer`: validates bond existence and positivity, reads the sender
holder (error if the key is absent), checks the balance, reads or lazily
creates the recipient holder from the pre-transfer state, then writes the
debited sender record followed by the credited recipient record.  When
`fromAddr = toAddr` the second write overwrites the first at the same key. -/
def Transfer (s : BTState) (fromAddr toAddr bondID : String)
    (quantity : Int) (now : Nat) : Except BTErr BTState :=
  if !(BondExists s bondID) then .error .bondNotFound
  else if quantity ≤ 0 then .error .nonPositiveQuantity
  else
    match GetTokenHolder s (fromAddr ++ "_" ++ bondID) with
    | none => .error .senderNotFound
    | some senderHolder =>
      if senderHolder.quantity < quantity then .error .insufficientBalance
      else
        let recipientHolder : TokenHolder :=
          match GetTokenHolder s (toAddr ++ "_" ++ bondID) with
          | none => ⟨toAddr, bondID, 0, now, []⟩
          | some r => r
        .ok (setKey
              (setKey s (fromAddr ++ "_" ++ bondID) (.holder
                { senderHolder with
                    quantity := senderHolder.quantity - quantity
                    lastUpdated := now }))
              (toAddr ++ "_" ++ bondID) (.holder
                { recipientHolder with
                    quantity := recipientHolder.quantity + quantity
                    lastUpdated := now }))

/-- Sum of the quantities of all TokenHolder records for a given bond. -/
def holderSum (s : BTState) (bondID : String) : Int :=
  s.foldr
    (fun e acc =>
      match e.2 with
      | .holder h => if h.bondId = bondID then h.quantity + acc else acc
      | .bond _ => acc)
    0

/-- A stored value is balance-sound: if it is a TokenHolder record its
quantity is non-negative. -/
def valNonNeg : BTVal → Bool
  | .holder h => 0 ≤ h.quantity
  | .bond _ => true

/-- All TokenHolder records in the state carry a non-negative quantity. -/
def NonNegHolders (s : BTState) : Prop :=
  ∀ e ∈ s, valNonNeg e.2 = true

instance (s : BTState) : Decidable (NonNegHolders s) :=
  inferInstanceAs (Decidable (∀ e ∈ s, valNonNeg e.2 = true))

/-- The totalSupply of the Bond record stored under `bondID`, if any. -/
def bondTotalSupplyAt (s : BTState) (bondID : String) : Option Int :=
  match getKey s bondID with
  | some (.bond b) => some b.totalSupply
  | _ => none

/-- The availableSupply of the Bond record stored under `bondID`, if any. -/
def bondAvailableSupplyAt (s : BTState) (bondID : String) : Option Int :=
  match getKey s bondID with
  | some (.bond b) => some b.availableSupply
  | _ => none

/-- The status of the Bond record stored under `bondID`, if any. -/
def bondStatusAt (s : BTState) (bondID : String) : Option String :=
  match getKey s bondID with
  | some (.bond b) => some b.status
  | _ => none

end BondToken

namespace Compliance

/-- `KYCRecord` struct of the Compliance chaincode (`dateOfBirth` is a
plain string in the source). -/
structure KYCRecord where
  address : String
  fullName : String
  dateOfBirth : String
  nationality : String
  idType : String
  idNumber : String
  status : String
  riskLevel : String
  approvedBy : String
  approvedAt : Nat
  createdAt : Nat
  updatedAt : Nat
  metadata : List (String × String)
deriving DecidableEq, Repr

/-- `AMLCheck` struct of the Compliance chaincode. -/
structure AMLCheck where
  address : String
  checkType : String
  status : String
  riskScore : Int
  checkDate : Nat
  expiryDate : Nat
  details : String
  checkedBy : String
deriving DecidableEq, Repr

/-- A value in the Compliance chaincode's namespace: KYC records at key
`address`, AML checks at key `address_checkType`. -/
inductive CVal where
  | kyc (k : KYCRecord)
  | aml (a : AMLCheck)
deriving DecidableEq, Repr

abbrev CState := List (String × CVal)

/-- Error taxonomy of the Compliance operations. -/
inductive CErr where
  | alreadyExists
  | notFound
deriving DecidableEq, Repr

/-- `json.Unmarshal` into `KYCRecord`: an AML blob shares exactly the
JSON tags `address` and `status` with KYCRecord; everything else zeroes. -/
def decodeKYC : CVal → KYCRecord
  | .kyc k => k
  | .aml a => ⟨a.address, "", "", "", "", "", a.status, "", "", 0, 0, 0, []⟩

/-- `json.Unmarshal` into `AMLCheck`: a KYC blob shares exactly the JSON
tags `address` and `status` with AMLCheck; everything else zeroes. -/
def decodeAML : CVal → AMLCheck
  | .aml a => a
  | .kyc k => ⟨k.address, "", k.status, 0, 0, 0, "", ""⟩

/-- `GetKYC`: errors (`none`) only when the key is absent. -/
def GetKYC (s : CState) (address : String) : Option KYCRecord :=
  (getKey s address).map decodeKYC

/-- `GetAMLCheck`: errors (`none`) only when the key is absent. -/
def GetAMLCheck (s : CState) (checkKey : String) : Option AMLCheck :=
  (getKey s checkKey).map decodeAML

/-- `KYCExists`: true iff `GetState(address)` returns any bytes. -/
def KYCExists (s : CState) (address : String) : Bool :=
  (getKey s address).isSome

/-- `CreateKYC`: fails if the key is already populated, else stores a
fresh record with status PENDING and riskLevel MEDIUM. -/
def CreateKYC (s : CState)
    (address fullName dateOfBirth nationality idType idNumber : String)
    (now : Nat) : Except CErr CState :=
  if KYCExists s address then .error .alreadyExists
  else
    .ok (setKey s address (.kyc
      { address := address
        fullName := fullName
        dateOfBirth := dateOfBirth
        nationality := nationality
        idType := idType
        idNumber := idNumber
        status := "PENDING"
        riskLevel := "MEDIUM"
        approvedBy := ""
        approvedAt := 0
        createdAt := now
        updatedAt := now
        metadata := [] }))

/-- `ApproveKYC`: requires an existing record; unconditionally sets
status APPROVED (the source never inspects the current status). -/
def ApproveKYC (s : CState) (address approvedBy riskLevel : String)
    (now : Nat) : Except CErr CState :=
  match GetKYC s address with
  | none => .error .notFound
  | some kyc =>
    .ok (setKey s address (.kyc
      { kyc with
          status := "APPROVED"
          riskLevel := riskLevel
          approvedBy := approvedBy
          approvedAt := now
          updatedAt := now }))

/-- `RejectKYC`: requires an existing record; unconditionally sets status
REJECTED and records the reason and rejecting party in the metadata. -/
def RejectKYC (s : CState) (address rejectedBy reason : String)
    (now : Nat) : Except CErr CState :=
  match GetKYC s address with
  | none => .error .notFound
  | some kyc =>
    .ok (setKey s address (.kyc
      { kyc with
          status := "REJECTED"
          updatedAt := now
          metadata :=
            setKey (setKey kyc.metadata "rejection_reason" reason)
              "rejected_by" rejectedBy }))

/-- `time.Now().AddDate(0, 6, 0)`: the 6-month expiry horizon, abstracted
to an additive offset (no claim inspects the expiry date). -/
def sixMonthsLater (t : Nat) : Nat := t + 6

/-- `CreateAMLCheck`: writes `address_checkType` unconditionally (AML
checks are upsertable: no existence check in the source). -/
def CreateAMLCheck (s : CState) (address checkType : String)
    (riskScore : Int) (details : String) (now : Nat) : Except CErr CState :=
  .ok (setKey s (address ++ "_" ++ checkType) (.aml
    { address := address
      checkType := checkType
      status := "PENDING"
      riskScore := riskScore
      checkDate := now
      expiryDate := sixMonthsLater now
      details := details
      checkedBy := "SYSTEM" }))

/-- `UpdateAMLCheck`: requires an existing record at `address_checkType`;
overwrites status, risk score, details and check date. -/
def UpdateAMLCheck (s : CState) (address checkType status : String)
    (riskScore : Int) (details : String) (now : Nat) : Except CErr CState :=
  match getKey s (address ++ "_" ++ checkType) with
  | none => .error .notFound
  | some v =>
    let amlCheck := decodeAML v
    .ok (setKey s (address ++ "_" ++ checkType) (.aml
      { amlCheck with
          status := status
          riskScore := riskScore
          details := details
          checkDate := now }))

/-- `CheckCompliance`: the read-only compliance gate.  Sequentially: no
KYC record, then non-APPROVED KYC status, then a FAILED SANCTIONS check,
then a FAILED PEP check; otherwise compliant.  (The Go error return is
always nil.) -/
def CheckCompliance (s : CState) (address : String) : Bool × String :=
  match GetKYC s address with
  | none => (false, "KYC record not found")
  | some kyc =>
    if kyc.status ≠ "APPROVED" then (false, "KYC status: " ++ kyc.status)
    else
      let pepPart : Bool × String :=
        match GetAMLCheck s (address ++ "_PEP") with
        | some c => if c.status = "FAILED" then (false, "PEP check failed")
                    else (true, "Compliant")
        | none => (true, "Compliant")
      match GetAMLCheck s (address ++ "_SANCTIONS") with
      | some c => if c.status = "FAILED" then (false, "Sanctions check failed")
                  else pepPart
      | none => pepPart

/-- A KYC-registry operation (the three operations the KYC state machine
of the spec is about). -/
inductive KYCOp where
  | create (address fullName dateOfBirth nationality idType idNumber :
      String) (now : Nat)
  | approve (address approvedBy riskLevel : String) (now : Nat)
  | reject (address rejectedBy reason : String) (now : Nat)

/-- Apply one KYC operation; a failed invocation commits nothing. -/
def applyKYCOp (s : CState) : KYCOp → CState
  | .create a fn dob nat idt idn now =>
      commit s (CreateKYC s a fn dob nat idt idn now)
  | .approve a by' rl now => commit s (ApproveKYC s a by' rl now)
  | .reject a by' r now => commit s (RejectKYC s a by' r now)

/-- Run a sequence of KYC operations left to right. -/
def runKYCOps (s : CState) (ops : List KYCOp) : CState :=
  ops.foldl applyKYCOp s

end Compliance

namespace CorporateAction

/-- `CouponPayment` struct of the CorporateAction chaincode. -/
structure CouponPayment where
  id : String
  bondId : String
  paymentDate : Date
  amount : Rat
  status : String
  paidAt : Nat
  txId : String
  metadata : List (String × String)
deriving DecidableEq, Repr

/-- `Redemption` struct of the CorporateAction chaincode. -/
structure Redemption where
  id : String
  bondId : String
  redemptionDate : Date
  amount : Rat
  status : String
  completedAt : Nat
  txId : String
  metadata : List (String × String)
deriving DecidableEq, Repr

/-- A value in the CorporateAction chaincode's namespace: coupon payments
at `COUPON_<bondID>_<dateTag>`, redemptions at
`REDEMPTION_<bondID>_<dateTag>`. -/
inductive CAVal where
  | coupon (c : CouponPayment)
  | redemption (r : Redemption)
deriving DecidableEq, Repr

abbrev CAState := List (String × CAVal)

/-- Error taxonomy of the CorporateAction operations. -/
inductive CAErr where
  | invalidDate
  | notFound
  | notPending
deriving DecidableEq, Repr

/-- `json.Unmarshal` into `CouponPayment`: a Redemption blob shares the
JSON tags id, bondId, amount, status, txId and metadata; the date fields
differ (`redemptionDate` vs `paymentDate`, `completedAt` vs `paidAt`). -/
def decodeCoupon : CAVal → CouponPayment
  | .coupon c => c
  | .redemption r =>
      ⟨r.id, r.bondId, zeroDate, r.amount, r.status, 0, r.txId, r.metadata⟩

/-- `json.Unmarshal` into `Redemption`, symmetrically. -/
def decodeRedemption : CAVal → Redemption
  | .redemption r => r
  | .coupon c =>
      ⟨c.id, c.bondId, zeroDate, c.amount, c.status, 0, c.txId, c.metadata⟩

/-- `GetCouponPayment`: errors (`none`) only when the key is absent. -/
def GetCouponPayment (s : CAState) (couponID : String) :
    Option CouponPayment :=
  (getKey s couponID).map decodeCoupon

/-- `GetRedemption`: errors (`none`) only when the key is absent. -/
def GetRedemption (s : CAState) (redemptionID : String) : Option Redemption :=
  (getKey s redemptionID).map decodeRedemption

/-- `CreateCouponPayment`: synthesizes the id
`COUPON_<bondID>_<todayTag>` (the tag is the wall-clock date formatted
`20060102`), parses the payment date, and stores a fresh PENDING record —
with NO existence check: any record already at that key is overwritten. -/
def CreateCouponPayment (s : CAState) (bondID paymentDateStr : String)
    (amount : Rat) (todayTag : String) : Except CAErr CAState :=
  let couponID := "COUPON_" ++ bondID ++ "_" ++ todayTag
  match parseDate paymentDateStr with
  | none => .error .invalidDate
  | some paymentDate =>
    .ok (setKey s couponID (.coupon
      { id := couponID
        bondId := bondID
        paymentDate := paymentDate
        amount := amount
        status := "PENDING"
        paidAt := 0
        txId := ""
        metadata := [] }))

/-- `ProcessCouponPayment`: absent id fails NotFound; status other than
PENDING fails "is not pending"; otherwise stamps status PAID, the
completion time and the transaction id, and writes the record back. -/
def ProcessCouponPayment (s : CAState) (couponID : String) (now : Nat)
    (txid : String) : Except CAErr CAState :=
  match GetCouponPayment s couponID with
  | none => .error .notFound
  | some couponPayment =>
    if couponPayment.status ≠ "PENDING" then .error .notPending
    else
      .ok (setKey s couponID (.coupon
        { couponPayment with status := "PAID", paidAt := now, txId := txid }))

/-- `CreateRedemption`: same shape as `CreateCouponPayment`, id
`REDEMPTION_<bondID>_<todayTag>`, and again NO existence check. -/
def CreateRedemption (s : CAState) (bondID redemptionDateStr : String)
    (amount : Rat) (todayTag : String) : Except CAErr CAState :=
  let redemptionID := "REDEMPTION_" ++ bondID ++ "_" ++ todayTag
  match parseDate redemptionDateStr with
  | none => .error .invalidDate
  | some redemptionDate =>
    .ok (setKey s redemptionID (.redemption
      { id := redemptionID
        bondId := bondID
        redemptionDate := redemptionDate
        amount := amount
        status := "PENDING"
        completedAt := 0
        txId := ""
        metadata := [] }))

/-- `ProcessRedemption`: analogous to `ProcessCouponPayment` with
terminal status COMPLETED. -/
def ProcessRedemption (s : CAState) (redemptionID : String) (now : Nat)
    (txid : String) : Except CAErr CAState :=
  match GetRedemption s redemptionID with
  | none => .error .notFound
  | some redemption =>
    if redemption.status ≠ "PENDING" then .error .notPending
    else
      .ok (setKey s redemptionID (.redemption
        { redemption with
            status := "COMPLETED", completedAt := now, txId := txid }))

/-- `CalculateCouponAmount`: `(faceValue * couponRate) / 100`.  The Go
method additionally receives the transaction context and a bondID, reads
neither, and always returns a nil error. -/
def CalculateCouponAmount (bondID : String) (faceValue couponRate : Rat) :
    Rat :=
  (faceValue * couponRate) / 100

end CorporateAction

/-! ## Concrete scenario states -/

/-- The ledger right after `IssueBond("BOND_001", ..., totalSupply=1000)`
on an empty ledger (the spec's end-to-end scenario). -/
def issuedLedger : BondToken.BTState :=
  commit [] (BondToken.IssueBond [] "BOND_001" "ISSUER1" "Acme Corp" "USD"
    "US0000000001" "AAA" "NONE" 1000 5 1000 "2030-01-01" 0)

/-- A sample Bond record stored under key `B1`. -/
def exBond : BondToken.Bond :=
  { id := "B1", issuerId := "I1", issuerName := "Issuer One"
    faceValue := 100, couponRate := 5, maturityDate := ⟨2030, 1, 1⟩
    issueDate := 0, totalSupply := 100, availableSupply := 100
    status := "ACTIVE", currency := "USD", isin := "US01", rating := "A"
    collateral := "NONE" }

/-- A sample TokenHolder record: address `al` holds 5 tokens of `B1`. -/
def exHolder : BondToken.TokenHolder :=
  { address := "al", bondId := "B1", quantity := 5, lastUpdated := 0
    metadata := [] }

/-- A ledger with bond `B1` and holder `al` funded with 5 tokens. -/
def fundedLedger : BondToken.BTState :=
  [("B1", .bond exBond), ("al_B1", .holder exHolder)]

/-- A ledger with bond `B1` and no holder records at all. -/
def noHolderLedger : BondToken.BTState := [("B1", .bond exBond)]

/-- An APPROVED KYC record for `alice`. -/
def kycApproved : Compliance.KYCRecord :=
  { address := "alice", fullName := "Alice Johnson"
    dateOfBirth := "1990-01-01", nationality := "US", idType := "PASSPORT"
    idNumber := "US123456", status := "APPROVED", riskLevel := "LOW"
    approvedBy := "admin", approvedAt := 2, createdAt := 1, updatedAt := 2
    metadata := [] }

/-- A compliance ledger with an APPROVED KYC for `alice` and no AML
checks. -/
def complianceLedger : Compliance.CState := [("alice", .kyc kycApproved)]

/-- The status of the KYC record that `GetKYC` reads at `address`. -/
def kycStatusAt (s : Compliance.CState) (address : String) : Option String :=
  (Compliance.GetKYC s address).map Compliance.KYCRecord.status

/-- Ledger after `CreateKYC("alice", ...)` on an empty compliance ledger. -/
def kycLedger1 : Compliance.CState :=
  commit [] (Compliance.CreateKYC [] "alice" "Alice Johnson" "1990-01-01"
    "US" "PASSPORT" "US123456" 1)

/-- ... then `ApproveKYC("alice", "admin", "LOW")`. -/
def kycLedger2 : Compliance.CState :=
  commit kycLedger1 (Compliance.ApproveKYC kycLedger1 "alice" "admin" "LOW" 2)

/-- ... then `RejectKYC("alice", "admin", "Incomplete documentation")`. -/
def kycLedger3 : Compliance.CState :=
  commit kycLedger2
    (Compliance.RejectKYC kycLedger2 "alice" "admin"
      "Incomplete documentation" 3)

/-- A PENDING coupon payment for BOND_001 dated 2024-06-01 (the spec's
one-shot scenario). -/
def pendingCoupon : CorporateAction.CouponPayment :=
  { id := "COUPON_BOND_001_20240601", bondId := "BOND_001"
    paymentDate := ⟨2024, 6, 1⟩, amount := 50, status := "PENDING"
    paidAt := 0, txId := "", metadata := [] }

/-- A corporate-action ledger holding only `pendingCoupon`. -/
def couponLedger : CorporateAction.CAState :=
  [("COUPON_BOND_001_20240601", .coupon pendingCoupon)]

/-- The same coupon after processing: status PAID. -/
def paidCoupon : CorporateAction.CouponPayment :=
  { pendingCoupon with status := "PAID", paidAt := 5, txId := "tx5" }

/-- A corporate-action ledger whose coupon key already holds a PAID
record. -/
def paidCouponLedger : CorporateAction.CAState :=
  [("COUPON_BOND_001_20240601", .coupon paidCoupon)]

/-- The status of the coupon record that `GetCouponPayment` reads. -/
def couponStatusAt (s : CorporateAction.CAState) (couponID : String) :
    Option String :=
  (CorporateAction.GetCouponPayment s couponID).map
    CorporateAction.CouponPayment.status

/-! ## Store lemmas -/

theorem getKey_append {V : Type} (l1 l2 : List (String × V)) (k : String) :
    getKey (l1 ++ l2) k =
      match getKey l1 k with
      | some v => some v
      | none => getKey l2 k := by
  induction l1 with
  | nil => simp [getKey]
  | cons e rest ih =>
    simp only [List.cons_append, getKey]
    split <;> simp [ih]

theorem getKey_filter_self {V : Type} (s : List (String × V)) (k : String) :
    getKey (s.filter (fun e => e.1 != k)) k = none := by
  induction s with
  | nil => simp [getKey]
  | cons e rest ih =>
    rcases e with ⟨a, v⟩
    by_cases h : a = k
    · simpa [List.filter_cons, h] using ih
    · simp [List.filter_cons, bne_iff_ne, h, getKey, ih]

theorem getKey_filter_ne {V : Type} (s : List (String × V)) (k k' : String)
    (h : k' ≠ k) :
    getKey (s.filter (fun e => e.1 != k)) k' = getKey s k' := by
  induction s with
  | nil => simp
  | cons e rest ih =>
    rcases e with ⟨a, v⟩
    by_cases hak : a = k
    · have hkk' : ¬(k = k') := fun hh => h hh.symm
      simp [List.filter_cons, hak, getKey, hkk', ih]
    · by_cases ha' : a = k'
      · simp [List.filter_cons, bne_iff_ne, hak, getKey, ha', h]
      · simp [List.filter_cons, bne_iff_ne, hak, getKey, ha', ih]

theorem getKey_setKey_self {V : Type} (s : List (String × V)) (k : String)
    (v : V) : getKey (setKey s k v) k = some v := by
  simp [setKey, getKey_append, getKey_filter_self, getKey]

theorem getKey_setKey_ne {V : Type} (s : List (String × V)) (k k' : String)
    (v : V) (h : k' ≠ k) : getKey (setKey s k v) k' = getKey s k' := by
  have hkk' : ¬(k = k') := fun hh => h hh.symm
  cases hx : getKey s k' <;>
    simp [setKey, getKey_append, getKey_filter_ne s k k' h, hx, getKey, hkk']

theorem getKey_mem {V : Type} (s : List (String × V)) (k : String) (v : V)
    (h : getKey s k = some v) : (k, v) ∈ s := by
  induction s with
  | nil => simp [getKey] at h
  | cons e rest ih =>
    rcases e with ⟨a, w⟩
    by_cases ha : a = k
    · subst ha
      simp [getKey] at h
      subst h
      exact List.mem_cons_self _ _
    · simp [getKey, ha] at h
      exact List.mem_cons_of_mem _ (ih h)

theorem mem_setKey {V : Type} (s : List (String × V)) (k : String) (v : V)
    (e : String × V) (h : e ∈ setKey s k v) : e ∈ s ∨ e = (k, v) := by
  rcases List.mem_append.mp h with h1 | h2
  · exact Or.inl (List.mem_filter.mp h1).1
  · simp at h2
    exact Or.inr h2

/-! ## Claim theorems -/

/-- C1 (code_bug): the spec demands `Σ holder.quantity = bond.totalSupply`
for every sequence of valid Transfers following IssueBond.  Evaluating
the code at the spec's own scenario — `IssueBond("BOND_001",
totalSupply=1000)` on an empty ledger, zero subsequent transfers — the
bond record carries totalSupply 1000 but the sum of all TokenHolder
quantities for BOND_001 is 0: IssueBond stores no TokenHolder record, so
the conservation invariant is already broken before the first transfer. -/
theorem issueBond_holder_sum_divergence :
    (BondToken.IssueBond [] "BOND_001" "ISSUER1" "Acme Corp" "USD"
      "US0000000001" "AAA" "NONE" 1000 5 1000 "2030-01-01" 0).isOk = true ∧
    BondToken.bondTotalSupplyAt issuedLedger "BOND_001" = some 1000 ∧
    BondToken.holderSum issuedLedger "BOND_001" = 0 := by
  refine ⟨?_, ?_, ?_⟩ <;> decide

/-- C2 (code_bug): IssueBond does create the Bond record with
availableSupply = totalSupply and status ACTIVE, but it creates no
TokenHolder record for the issuer: immediately after
`IssueBond("BOND_001", totalSupply=1000)` the holder key
`ISSUER1_BOND_001` is absent and `GetBalance(ISSUER1, BOND_001)` is 0,
not 1000 as the claim requires. -/
theorem issueBond_missing_issuer_credit :
    BondToken.bondStatusAt issuedLedger "BOND_001" = some "ACTIVE" ∧
    BondToken.bondAvailableSupplyAt issuedLedger "BOND_001" = some 1000 ∧
    BondToken.GetTokenHolder issuedLedger "ISSUER1_BOND_001" = none ∧
    BondToken.GetBalance issuedLedger "ISSUER1" "BOND_001" = 0 := by
  refine ⟨?_, ?_, ?_, ?_⟩ <;> decide

/-- C10 (confirmed): CalculateCouponAmount is the pure function
`faceValue * couponRate / 100`; in particular it maps (1000, 5) to 50 and
(5000, 3.5) to 175.  (Quantities are modelled as rationals; these inputs
and operations are exact in binary64, so the Go float64 computation
agrees.) -/
theorem calculateCouponAmount_values :
    CorporateAction.CalculateCouponAmount "BOND_001" 1000 5 = 50 ∧
    CorporateAction.CalculateCouponAmount "BOND_002" 5000 (7 / 2) = 175 ∧
    ∀ (bondID : String) (faceValue couponRate : Rat),
      CorporateAction.CalculateCouponAmount bondID faceValue couponRate =
        faceValue * couponRate / 100 := by
  refine ⟨by norm_num [CorporateAction.CalculateCouponAmount],
    by norm_num [CorporateAction.CalculateCouponAmount],
    fun _ _ _ => rfl⟩

/-- C3 (confirmed): a self-transfer mints.  When the bond exists, the
quantity is positive, and the holder record at `a_bondID` covers it, the
call `Transfer(a, a, bondID, q)` succeeds and the record stored at that
key afterwards carries quantity `old + q`: the recipient write (computed
from the pre-transfer read) lands on the same key as the sender's debited
write and overwrites it. -/
theorem transfer_self_mints (s : BondToken.BTState) (a bondID : String)
    (q : Int) (now : Nat) (sh : BondToken.TokenHolder)
    (hbond : BondToken.BondExists s bondID = true)
    (hq : 0 < q)
    (hsh : BondToken.GetTokenHolder s (a ++ "_" ++ bondID) = some sh)
    (hbal : q ≤ sh.quantity) :
    ∃ s', BondToken.Transfer s a a bondID q now = .ok s' ∧
      BondToken.GetTokenHolder s' (a ++ "_" ++ bondID) =
        some { sh with quantity := sh.quantity + q, lastUpdated := now } := by
  have h1 : ¬(q ≤ 0) := not_le.mpr hq
  have h2 : ¬(sh.quantity < q) := not_lt.mpr hbal
  refine ⟨setKey
      (setKey s (a ++ "_" ++ bondID) (.holder
        { sh with quantity := sh.quantity - q, lastUpdated := now }))
      (a ++ "_" ++ bondID) (.holder
        { sh with quantity := sh.quantity + q, lastUpdated := now }),
    ?_, ?_⟩
  · simp only [BondToken.Transfer, hbond, Bool.not_true, Bool.false_eq_true,
      if_false, h1, hsh, h2, if_neg]
  · simp [BondToken.GetTokenHolder, getKey_setKey_self, BondToken.decodeHolder]

/-- Witness for C3 at a concrete ledger: `al` holds 5 tokens of `B1`; a
self-transfer of 3 succeeds and leaves `al` holding 8. -/
theorem transfer_self_mints_witness :
    ∃ s', BondToken.Transfer fundedLedger "al" "al" "B1" 3 7 = .ok s' ∧
      BondToken.GetTokenHolder s' ("al" ++ "_" ++ "B1") =
        some { exHolder with
                 quantity := exHolder.quantity + 3, lastUpdated := 7 } :=
  transfer_self_mints fundedLedger "al" "B1" 3 7 exHolder (by decide)
    (by decide) (by decide) (by decide)

/-- C4 counterexample: on a ledger where bond `B1` exists and `alice` has
no holder record (recorded balance 0), `Transfer(alice, bob, B1, 5)`
fails with the sender-holder-not-found error from `GetTokenHolder`, not
with InsufficientBalance as the claim states. -/
theorem transfer_missing_sender_counterexample :
    BondToken.BondExists noHolderLedger "B1" = true ∧
    BondToken.GetBalance noHolderLedger "alice" "B1" = 0 ∧
    BondToken.Transfer noHolderLedger "alice" "bob" "B1" 5 0 =
      .error .senderNotFound ∧
    BondToken.Transfer noHolderLedger "alice" "bob" "B1" 5 0 ≠
      .error .insufficientBalance := by
  refine ⟨?_, ?_, ?_, ?_⟩ <;> decide

/-- C4 (corrected): on an existing bond with positive quantity exceeding
the sender's recorded balance (missing record = balance 0), Transfer
fails — with InsufficientBalance when a sender record is present, and
with the holder-not-found error when the sender record is missing — and
in either case the failed invocation commits no writes. -/
theorem transfer_overdraw_amended (s : BondToken.BTState)
    (fromAddr toAddr bondID : String) (q : Int) (now : Nat)
    (hbond : BondToken.BondExists s bondID = true)
    (hq : 0 < q)
    (hlt : BondToken.GetBalance s fromAddr bondID < q) :
    (∀ sh, BondToken.GetTokenHolder s (fromAddr ++ "_" ++ bondID) = some sh →
       BondToken.Transfer s fromAddr toAddr bondID q now =
         .error .insufficientBalance) ∧
    (BondToken.GetTokenHolder s (fromAddr ++ "_" ++ bondID) = none →
       BondToken.Transfer s fromAddr toAddr bondID q now =
         .error .senderNotFound) ∧
    commit s (BondToken.Transfer s fromAddr toAddr bondID q now) = s := by
  have h1 : ¬(q ≤ 0) := not_le.mpr hq
  have hcase : ∀ sh,
      BondToken.GetTokenHolder s (fromAddr ++ "_" ++ bondID) = some sh →
      BondToken.Transfer s fromAddr toAddr bondID q now =
        .error .insufficientBalance := by
    intro sh hsh
    have hble : BondToken.GetBalance s fromAddr bondID = sh.quantity := by
      simp [BondToken.GetBalance, hsh]
    have hq2 : sh.quantity < q := by rw [hble] at hlt; exact hlt
    simp [BondToken.Transfer, hbond, h1, hsh, hq2]
  have hnonecase :
      BondToken.GetTokenHolder s (fromAddr ++ "_" ++ bondID) = none →
      BondToken.Transfer s fromAddr toAddr bondID q now =
        .error .senderNotFound := by
    intro hnone
    simp [BondToken.Transfer, hbond, h1, hnone]
  refine ⟨hcase, hnonecase, ?_⟩
  cases hsh : BondToken.GetTokenHolder s (fromAddr ++ "_" ++ bondID) with
  | none => simp [commit, hnonecase hsh]
  | some sh => simp [commit, hcase sh hsh]

/-- Witness for C4 at a concrete ledger: `al` holds 5 tokens of `B1`;
transferring 9 fails InsufficientBalance and commits nothing. -/
theorem transfer_overdraw_amended_witness :
    BondToken.Transfer fundedLedger "al" "bob" "B1" 9 0 =
      .error .insufficientBalance ∧
    commit fundedLedger (BondToken.Transfer fundedLedger "al" "bob" "B1" 9 0) =
      fundedLedger := by
  have h := transfer_overdraw_amended fundedLedger "al" "bob" "B1" 9 0
    (by decide) (by decide) (by decide)
  exact ⟨h.1 exHolder (by decide), h.2.2⟩

/-- Writing a balance-sound value preserves holder non-negativity. -/
theorem nonNegHolders_setKey (s : BondToken.BTState) (k : String)
    (v : BondToken.BTVal) (hnn : BondToken.NonNegHolders s)
    (hv : BondToken.valNonNeg v = true) :
    BondToken.NonNegHolders (setKey s k v) := by
  intro e he
  rcases mem_setKey s k v e he with h1 | h2
  · exact hnn e h1
  · rw [h2]
    exact hv

/-- Any holder record `GetTokenHolder` returns out of a non-negative
state has non-negative quantity (a Bond blob decodes to quantity 0). -/
theorem nonNeg_getTokenHolder (s : BondToken.BTState) (k : String)
    (hh : BondToken.TokenHolder) (hnn : BondToken.NonNegHolders s)
    (h : BondToken.GetTokenHolder s k = some hh) : 0 ≤ hh.quantity := by
  unfold BondToken.GetTokenHolder at h
  cases hv : getKey s k with
  | none => rw [hv] at h; simp at h
  | some v =>
    rw [hv] at h
    simp at h
    cases v with
    | holder h' =>
      have := hnn (k, .holder h') (getKey_mem s k _ hv)
      simp [BondToken.valNonNeg, BondToken.decodeHolder] at this ⊢
      rw [← h]
      simpa [BondToken.decodeHolder] using this
    | bond b =>
      rw [← h]
      simp [BondToken.decodeHolder]

/-- C9 (confirmed): starting from any state whose TokenHolder quantities
are all non-negative, no Transfer — committed per the all-or-nothing
transaction semantics — leaves any holder quantity below 0; and an
attempted overdraw (sender record present, quantity exceeding it) returns
InsufficientBalance and commits no writes. -/
theorem transfer_no_negative_balances :
    (∀ (s : BondToken.BTState) (fromAddr toAddr bondID : String) (q : Int)
       (now : Nat),
       BondToken.NonNegHolders s →
       BondToken.NonNegHolders
         (commit s (BondToken.Transfer s fromAddr toAddr bondID q now))) ∧
    (∀ (s : BondToken.BTState) (fromAddr toAddr bondID : String) (q : Int)
       (now : Nat) (sh : BondToken.TokenHolder),
       BondToken.BondExists s bondID = true → 0 < q →
       BondToken.GetTokenHolder s (fromAddr ++ "_" ++ bondID) = some sh →
       sh.quantity < q →
       BondToken.Transfer s fromAddr toAddr bondID q now =
         .error .insufficientBalance ∧
       commit s (BondToken.Transfer s fromAddr toAddr bondID q now) = s) := by
  constructor
  · intro s fA tA b q now hnn
    by_cases hbond : BondToken.BondExists s b = true
    · by_cases hq : q ≤ 0
      · simpa [BondToken.Transfer, hbond, hq, commit] using hnn
      · cases hsh : BondToken.GetTokenHolder s (fA ++ "_" ++ b) with
        | none =>
          simpa [BondToken.Transfer, hbond, hq, hsh, commit] using hnn
        | some sh =>
          by_cases hlt : sh.quantity < q
          · simpa [BondToken.Transfer, hbond, hq, hsh, hlt, commit] using hnn
          · cases hrec : BondToken.GetTokenHolder s (tA ++ "_" ++ b) with
            | none =>
              simp only [BondToken.Transfer, hbond, Bool.not_true,
                Bool.false_eq_true, if_false, hq, hsh, hlt, hrec, commit]
              apply nonNegHolders_setKey
              · apply nonNegHolders_setKey _ _ _ hnn
                simp only [BondToken.valNonNeg, decide_eq_true_eq]
                omega
              · simp only [BondToken.valNonNeg, decide_eq_true_eq]
                omega
            | some rh =>
              have hrq : 0 ≤ rh.quantity :=
                nonNeg_getTokenHolder s (tA ++ "_" ++ b) rh hnn hrec
              simp only [BondToken.Transfer, hbond, Bool.not_true,
                Bool.false_eq_true, if_false, hq, hsh, hlt, hrec, commit]
              apply nonNegHolders_setKey
              · apply nonNegHolders_setKey _ _ _ hnn
                simp only [BondToken.valNonNeg, decide_eq_true_eq]
                omega
              · simp only [BondToken.valNonNeg, decide_eq_true_eq]
                omega
    · have hb' : BondToken.BondExists s b = false := by
        cases h' : BondToken.BondExists s b
        · rfl
        · exact absurd h' hbond
      simpa [BondToken.Transfer, hb', commit] using hnn
  · intro s fA tA b q now sh hbond hq hsh hlt
    have h1 : ¬(q ≤ 0) := not_le.mpr hq
    have herr : BondToken.Transfer s fA tA b q now =
        .error .insufficientBalance := by
      simp [BondToken.Transfer, hbond, h1, hsh, hlt]
    exact ⟨herr, by simp [commit, herr]⟩

/-- Witness for C9 at a concrete ledger: non-negativity of the funded
ledger is preserved by a committed transfer, and the concrete overdraw
`Transfer(al, bob, B1, 7)` of a 5-token balance fails
InsufficientBalance and commits nothing. -/
theorem transfer_no_negative_balances_witness :
    BondToken.NonNegHolders
      (commit fundedLedger
        (BondToken.Transfer fundedLedger "al" "bob" "B1" 2 3)) ∧
    BondToken.Transfer fundedLedger "al" "bob" "B1" 7 3 =
      .error .insufficientBalance :=
  ⟨transfer_no_negative_balances.1 fundedLedger "al" "bob" "B1" 2 3
      (by decide),
    (transfer_no_negative_balances.2 fundedLedger "al" "bob" "B1" 7 3
      exHolder (by decide) (by decide) (by decide) (by decide)).1⟩

/-- C5 (confirmed): CheckCompliance returns exactly the five cases the
spec lists, in its priority order — missing KYC, non-APPROVED KYC, FAILED
SANCTIONS check, FAILED PEP check, else compliant — for every compliance
state and address; only those two check types are read and only status
FAILED blocks. -/
theorem checkCompliance_characterization (s : Compliance.CState)
    (a : String) :
    (Compliance.GetKYC s a = none →
       Compliance.CheckCompliance s a = (false, "KYC record not found")) ∧
    (∀ k, Compliance.GetKYC s a = some k → k.status ≠ "APPROVED" →
       Compliance.CheckCompliance s a =
         (false, "KYC status: " ++ k.status)) ∧
    (∀ k c, Compliance.GetKYC s a = some k → k.status = "APPROVED" →
       Compliance.GetAMLCheck s (a ++ "_SANCTIONS") = some c →
       c.status = "FAILED" →
       Compliance.CheckCompliance s a = (false, "Sanctions check failed")) ∧
    (∀ k p, Compliance.GetKYC s a = some k → k.status = "APPROVED" →
       (∀ c, Compliance.GetAMLCheck s (a ++ "_SANCTIONS") = some c →
          c.status ≠ "FAILED") →
       Compliance.GetAMLCheck s (a ++ "_PEP") = some p →
       p.status = "FAILED" →
       Compliance.CheckCompliance s a = (false, "PEP check failed")) ∧
    (∀ k, Compliance.GetKYC s a = some k → k.status = "APPROVED" →
       (∀ c, Compliance.GetAMLCheck s (a ++ "_SANCTIONS") = some c →
          c.status ≠ "FAILED") →
       (∀ c, Compliance.GetAMLCheck s (a ++ "_PEP") = some c →
          c.status ≠ "FAILED") →
       Compliance.CheckCompliance s a = (true, "Compliant")) := by
  refine ⟨?_, ?_, ?_, ?_, ?_⟩
  · intro h
    simp [Compliance.CheckCompliance, h]
  · intro k hk hst
    simp [Compliance.CheckCompliance, hk, hst]
  · intro k c hk hst hc hcf
    simp [Compliance.CheckCompliance, hk, hst, hc, hcf]
  · intro k p hk hst hns hp hpf
    cases hsc : Compliance.GetAMLCheck s (a ++ "_SANCTIONS") with
    | none => simp [Compliance.CheckCompliance, hk, hst, hsc, hp, hpf]
    | some c =>
      have hcne := hns c hsc
      simp [Compliance.CheckCompliance, hk, hst, hsc, hcne, hp, hpf]
  · intro k hk hst hns hnp
    cases hsc : Compliance.GetAMLCheck s (a ++ "_SANCTIONS") with
    | none =>
      cases hp : Compliance.GetAMLCheck s (a ++ "_PEP") with
      | none => simp [Compliance.CheckCompliance, hk, hst, hsc, hp]
      | some p =>
        have hpne := hnp p hp
        simp [Compliance.CheckCompliance, hk, hst, hsc, hp, hpne]
    | some c =>
      have hcne := hns c hsc
      cases hp : Compliance.GetAMLCheck s (a ++ "_PEP") with
      | none => simp [Compliance.CheckCompliance, hk, hst, hsc, hcne, hp]
      | some p =>
        have hpne := hnp p hp
        simp [Compliance.CheckCompliance, hk, hst, hsc, hcne, hp, hpne]

/-- Witness for C5: APPROVED KYC and no AML checks is compliant. -/
theorem checkCompliance_characterization_witness :
    Compliance.CheckCompliance complianceLedger "alice" =
      (true, "Compliant") := by
  have h := checkCompliance_characterization complianceLedger "alice"
  apply h.2.2.2.2 kycApproved
  · decide
  · rfl
  · intro c hc
    rw [show Compliance.GetAMLCheck complianceLedger ("alice" ++ "_SANCTIONS")
        = none from by decide] at hc
    exact Option.noConfusion hc
  · intro c hc
    rw [show Compliance.GetAMLCheck complianceLedger ("alice" ++ "_PEP")
        = none from by decide] at hc
    exact Option.noConfusion hc

/-- C8 counterexample: create alice (PENDING), approve (APPROVED), then
RejectKYC still succeeds and moves the record to REJECTED — APPROVED is
not terminal, contradicting the claim. -/
theorem kyc_terminality_counterexample :
    kycStatusAt kycLedger2 "alice" = some "APPROVED" ∧
    (Compliance.RejectKYC kycLedger2 "alice" "admin"
      "Incomplete documentation" 3).isOk = true ∧
    kycStatusAt kycLedger3 "alice" = some "REJECTED" := by
  refine ⟨?_, ?_, ?_⟩ <;> decide

/-- One KYC operation can never move a record whose status is not
PENDING back to PENDING: a failed create leaves the state alone, and
approve/reject write APPROVED/REJECTED. -/
theorem kycStatusAt_step (s : Compliance.CState) (a st : String)
    (op : Compliance.KYCOp) (h : kycStatusAt s a = some st)
    (hne : st ≠ "PENDING") :
    ∃ st', kycStatusAt (Compliance.applyKYCOp s op) a = some st' ∧
      st' ≠ "PENDING" := by
  obtain ⟨v, hv⟩ : ∃ v, getKey s a = some v := by
    unfold kycStatusAt Compliance.GetKYC at h
    cases hg : getKey s a with
    | none => rw [hg] at h; simp at h
    | some v => exact ⟨v, rfl⟩
  cases op with
  | create a' fn dob nat idt idn now =>
    by_cases ha : a' = a
    · subst ha
      have hex : Compliance.KYCExists s a' = true := by
        simp [Compliance.KYCExists, hv]
      simp only [Compliance.applyKYCOp, Compliance.CreateKYC, hex, if_true,
        commit]
      exact ⟨st, h, hne⟩
    · by_cases hex : Compliance.KYCExists s a' = true
      · simp only [Compliance.applyKYCOp, Compliance.CreateKYC, hex, if_true,
          commit]
        exact ⟨st, h, hne⟩
      · have hex' : Compliance.KYCExists s a' = false := by
          cases hx : Compliance.KYCExists s a'
          · rfl
          · exact absurd hx hex
        refine ⟨st, ?_, hne⟩
        simp only [Compliance.applyKYCOp, Compliance.CreateKYC, hex',
          Bool.false_eq_true, if_false, commit]
        have hgu := getKey_setKey_ne s a' a
          (.kyc { address := a', fullName := fn, dateOfBirth := dob
                  nationality := nat, idType := idt, idNumber := idn
                  status := "PENDING", riskLevel := "MEDIUM"
                  approvedBy := "", approvedAt := 0, createdAt := now
                  updatedAt := now, metadata := [] })
          (fun hh => ha hh.symm)
        simpa [kycStatusAt, Compliance.GetKYC, hgu] using h
  | approve a' apBy rl now =>
    by_cases ha : a' = a
    · subst ha
      refine ⟨"APPROVED", ?_, by decide⟩
      simp [Compliance.applyKYCOp, Compliance.ApproveKYC, Compliance.GetKYC,
        hv, commit, kycStatusAt, getKey_setKey_self, Compliance.decodeKYC]
    · cases hv' : getKey s a' with
      | none =>
        refine ⟨st, ?_, hne⟩
        simpa [Compliance.applyKYCOp, Compliance.ApproveKYC,
          Compliance.GetKYC, hv', commit] using h
      | some w =>
        refine ⟨st, ?_, hne⟩
        have hgu := getKey_setKey_ne s a' a
          (.kyc { Compliance.decodeKYC w with
                    status := "APPROVED", riskLevel := rl
                    approvedBy := apBy, approvedAt := now, updatedAt := now })
          (fun hh => ha hh.symm)
        simpa [Compliance.applyKYCOp, Compliance.ApproveKYC,
          Compliance.GetKYC, hv', commit, kycStatusAt, hgu] using h
  | reject a' rjBy reason now =>
    by_cases ha : a' = a
    · subst ha
      refine ⟨"REJECTED", ?_, by decide⟩
      simp [Compliance.applyKYCOp, Compliance.RejectKYC, Compliance.GetKYC,
        hv, commit, kycStatusAt, getKey_setKey_self, Compliance.decodeKYC]
    · cases hv' : getKey s a' with
      | none =>
        refine ⟨st, ?_, hne⟩
        simpa [Compliance.applyKYCOp, Compliance.RejectKYC,
          Compliance.GetKYC, hv', commit] using h
      | some w =>
        refine ⟨st, ?_, hne⟩
        have hgu := getKey_setKey_ne s a' a
          (.kyc { Compliance.decodeKYC w with
                    status := "REJECTED", updatedAt := now
                    metadata := setKey
                      (setKey (Compliance.decodeKYC w).metadata
                        "rejection_reason" reason) "rejected_by" rjBy })
          (fun hh => ha hh.symm)
        simpa [Compliance.applyKYCOp, Compliance.RejectKYC,
          Compliance.GetKYC, hv', commit, kycStatusAt, hgu] using h

/-- C8 (corrected): ApproveKYC sets any existing record's status to
APPROVED and RejectKYC to REJECTED, regardless of the current status —
so APPROVED and REJECTED are mutually reachable and not terminal — and
the only irreversibility in the registry is that no sequence of KYC
operations ever returns a non-PENDING record to PENDING. -/
theorem kyc_transitions_amended :
    (∀ (s : Compliance.CState) (a apBy rl : String) (now : Nat),
       Compliance.KYCExists s a = true →
       ∃ s', Compliance.ApproveKYC s a apBy rl now = .ok s' ∧
         kycStatusAt s' a = some "APPROVED") ∧
    (∀ (s : Compliance.CState) (a rjBy reason : String) (now : Nat),
       Compliance.KYCExists s a = true →
       ∃ s', Compliance.RejectKYC s a rjBy reason now = .ok s' ∧
         kycStatusAt s' a = some "REJECTED") ∧
    (∀ (s : Compliance.CState) (a st : String)
       (ops : List Compliance.KYCOp),
       kycStatusAt s a = some st → st ≠ "PENDING" →
       ∃ st', kycStatusAt (Compliance.runKYCOps s ops) a = some st' ∧
         st' ≠ "PENDING") := by
  refine ⟨?_, ?_, ?_⟩
  · intro s a apBy rl now hex
    obtain ⟨v, hv⟩ : ∃ v, getKey s a = some v := by
      unfold Compliance.KYCExists at hex
      cases hg : getKey s a with
      | none => rw [hg] at hex; simp at hex
      | some v => exact ⟨v, rfl⟩
    refine ⟨setKey s a (.kyc
        { Compliance.decodeKYC v with
            status := "APPROVED", riskLevel := rl, approvedBy := apBy
            approvedAt := now, updatedAt := now }), ?_, ?_⟩
    · simp [Compliance.ApproveKYC, Compliance.GetKYC, hv]
    · simp [kycStatusAt, Compliance.GetKYC, getKey_setKey_self,
        Compliance.decodeKYC]
  · intro s a rjBy reason now hex
    obtain ⟨v, hv⟩ : ∃ v, getKey s a = some v := by
      unfold Compliance.KYCExists at hex
      cases hg : getKey s a with
      | none => rw [hg] at hex; simp at hex
      | some v => exact ⟨v, rfl⟩
    refine ⟨setKey s a (.kyc
        { Compliance.decodeKYC v with
            status := "REJECTED", updatedAt := now
            metadata := setKey
              (setKey (Compliance.decodeKYC v).metadata
                "rejection_reason" reason) "rejected_by" rjBy }), ?_, ?_⟩
    · simp [Compliance.RejectKYC, Compliance.GetKYC, hv]
    · simp [kycStatusAt, Compliance.GetKYC, getKey_setKey_self,
        Compliance.decodeKYC]
  · intro s a st ops h hne
    induction ops generalizing s st with
    | nil => exact ⟨st, h, hne⟩
    | cons op rest ih =>
      rcases kycStatusAt_step s a st op h hne with ⟨st1, h1, hne1⟩
      simpa [Compliance.runKYCOps, List.foldl] using
        ih (Compliance.applyKYCOp s op) st1 h1 hne1

/-- Witness for C8's amended claim at a concrete ledger: approving the
freshly created (PENDING) record for alice yields APPROVED. -/
theorem kyc_transitions_amended_witness :
    ∃ s', Compliance.ApproveKYC kycLedger1 "alice" "admin" "LOW" 2 =
        .ok s' ∧ kycStatusAt s' "alice" = some "APPROVED" :=
  kyc_transitions_amended.1 kycLedger1 "alice" "admin" "LOW" 2 (by decide)

/-- C6 (confirmed): ProcessCouponPayment fails NotFound when no record
exists under the id, fails the is-not-pending error when the stored
status is not PENDING, and otherwise writes the record back with status
PAID, the completion time and the transaction id — after which a second
call on the same id fails; and the analogous property holds for
ProcessRedemption with COMPLETED. -/
theorem process_one_shot :
    (∀ (s : CorporateAction.CAState) (couponID : String) (now : Nat)
       (txid : String),
       CorporateAction.GetCouponPayment s couponID = none →
       CorporateAction.ProcessCouponPayment s couponID now txid =
         .error .notFound) ∧
    (∀ (s : CorporateAction.CAState) (couponID : String) (now : Nat)
       (txid : String) (cp : CorporateAction.CouponPayment),
       CorporateAction.GetCouponPayment s couponID = some cp →
       cp.status ≠ "PENDING" →
       CorporateAction.ProcessCouponPayment s couponID now txid =
         .error .notPending) ∧
    (∀ (s : CorporateAction.CAState) (couponID : String) (now : Nat)
       (txid : String) (cp : CorporateAction.CouponPayment),
       CorporateAction.GetCouponPayment s couponID = some cp →
       cp.status = "PENDING" →
       CorporateAction.ProcessCouponPayment s couponID now txid =
         .ok (setKey s couponID (.coupon
           { cp with status := "PAID", paidAt := now, txId := txid })) ∧
       ∀ (s' : CorporateAction.CAState) (now2 : Nat) (txid2 : String),
         CorporateAction.ProcessCouponPayment s couponID now txid = .ok s' →
         CorporateAction.ProcessCouponPayment s' couponID now2 txid2 =
           .error .notPending) ∧
    (∀ (s : CorporateAction.CAState) (redemptionID : String) (now : Nat)
       (txid : String),
       CorporateAction.GetRedemption s redemptionID = none →
       CorporateAction.ProcessRedemption s redemptionID now txid =
         .error .notFound) ∧
    (∀ (s : CorporateAction.CAState) (redemptionID : String) (now : Nat)
       (txid : String) (r : CorporateAction.Redemption),
       CorporateAction.GetRedemption s redemptionID = some r →
       r.status ≠ "PENDING" →
       CorporateAction.ProcessRedemption s redemptionID now txid =
         .error .notPending) ∧
    (∀ (s : CorporateAction.CAState) (redemptionID : String) (now : Nat)
       (txid : String) (r : CorporateAction.Redemption),
       CorporateAction.GetRedemption s redemptionID = some r →
       r.status = "PENDING" →
       CorporateAction.ProcessRedemption s redemptionID now txid =
         .ok (setKey s redemptionID (.redemption
           { r with status := "COMPLETED", completedAt := now
                    txId := txid })) ∧
       ∀ (s' : CorporateAction.CAState) (now2 : Nat) (txid2 : String),
         CorporateAction.ProcessRedemption s redemptionID now txid = .ok s' →
         CorporateAction.ProcessRedemption s' redemptionID now2 txid2 =
           .error .notPending) := by
  refine ⟨?_, ?_, ?_, ?_, ?_, ?_⟩
  · intro s couponID now txid h
    simp [CorporateAction.ProcessCouponPayment, h]
  · intro s couponID now txid cp hcp hst
    simp [CorporateAction.ProcessCouponPayment, hcp, hst]
  · intro s couponID now txid cp hcp hst
    have hok : CorporateAction.ProcessCouponPayment s couponID now txid =
        .ok (setKey s couponID (.coupon
          { cp with status := "PAID", paidAt := now, txId := txid })) := by
      simp [CorporateAction.ProcessCouponPayment, hcp, hst]
    refine ⟨hok, ?_⟩
    intro s' now2 txid2 hok'
    rw [hok] at hok'
    have hs' : s' = setKey s couponID (.coupon
        { cp with status := "PAID", paidAt := now, txId := txid }) :=
      (Except.ok.inj hok').symm
    subst hs'
    simp [CorporateAction.ProcessCouponPayment,
      CorporateAction.GetCouponPayment, getKey_setKey_self,
      CorporateAction.decodeCoupon]
  · intro s redemptionID now txid h
    simp [CorporateAction.ProcessRedemption, h]
  · intro s redemptionID now txid r hr hst
    simp [CorporateAction.ProcessRedemption, hr, hst]
  · intro s redemptionID now txid r hr hst
    have hok : CorporateAction.ProcessRedemption s redemptionID now txid =
        .ok (setKey s redemptionID (.redemption
          { r with status := "COMPLETED", completedAt := now
                   txId := txid })) := by
      simp [CorporateAction.ProcessRedemption, hr, hst]
    refine ⟨hok, ?_⟩
    intro s' now2 txid2 hok'
    rw [hok] at hok'
    have hs' : s' = setKey s redemptionID (.redemption
        { r with status := "COMPLETED", completedAt := now
                 txId := txid }) :=
      (Except.ok.inj hok').symm
    subst hs'
    simp [CorporateAction.ProcessRedemption, CorporateAction.GetRedemption,
      getKey_setKey_self, CorporateAction.decodeRedemption]

/-- Witness for C6 at the spec's scenario: processing the pending
BOND_001 coupon succeeds with status PAID, time and txid stamped;
processing the same id again fails the is-not-pending error. -/
theorem process_one_shot_witness :
    CorporateAction.ProcessCouponPayment couponLedger
      "COUPON_BOND_001_20240601" 9 "tx9" =
      .ok (setKey couponLedger "COUPON_BOND_001_20240601" (.coupon
        { pendingCoupon with status := "PAID", paidAt := 9
                             txId := "tx9" })) ∧
    CorporateAction.ProcessCouponPayment
      (setKey couponLedger "COUPON_BOND_001_20240601" (.coupon
        { pendingCoupon with status := "PAID", paidAt := 9
                             txId := "tx9" }))
      "COUPON_BOND_001_20240601" 10 "tx10" = .error .notPending := by
  have h := process_one_shot.2.2.1 couponLedger "COUPON_BOND_001_20240601"
    9 "tx9" pendingCoupon (by decide) (by decide)
  exact ⟨h.1, h.2 _ 10 "tx10" h.1⟩

/-- C7 counterexample: with a PAID coupon already stored under
`COUPON_BOND_001_20240601`, calling CreateCouponPayment for the same
bond on the same wall-clock day succeeds — no AlreadyExists failure —
and silently replaces the PAID record with a fresh PENDING one, changing
the state. -/
theorem create_guard_counterexample :
    (CorporateAction.CreateCouponPayment paidCouponLedger "BOND_001"
      "2024-06-01" 50 "20240601").isOk = true ∧
    couponStatusAt paidCouponLedger "COUPON_BOND_001_20240601" =
      some "PAID" ∧
    couponStatusAt
      (commit paidCouponLedger
        (CorporateAction.CreateCouponPayment paidCouponLedger "BOND_001"
          "2024-06-01" 50 "20240601"))
      "COUPON_BOND_001_20240601" = some "PENDING" ∧
    commit paidCouponLedger
      (CorporateAction.CreateCouponPayment paidCouponLedger "BOND_001"
        "2024-06-01" 50 "20240601") ≠ paidCouponLedger := by
  refine ⟨?_, ?_, ?_, ?_⟩ <;> decide

/-- C7 (corrected): the AlreadyExists creation guard holds for CreateKYC
and IssueBond (which fail and commit nothing on a populated key), and AML
checks are upsertable as the spec says — but CreateCouponPayment and
CreateRedemption perform no existence check at all: they unconditionally
overwrite whatever is stored at the synthesized key with a fresh PENDING
record. -/
theorem create_guard_amended :
    (∀ (s : Compliance.CState)
       (a fn dob nat idt idn : String) (now : Nat),
       Compliance.KYCExists s a = true →
       Compliance.CreateKYC s a fn dob nat idt idn now =
         .error .alreadyExists ∧
       commit s (Compliance.CreateKYC s a fn dob nat idt idn now) = s) ∧
    (∀ (s : BondToken.BTState)
       (bondID issuerID issuerName currency isin rating collateral :
         String)
       (fv cr : Rat) (ts : Int) (md : String) (now : Nat),
       BondToken.BondExists s bondID = true →
       BondToken.IssueBond s bondID issuerID issuerName currency isin
         rating collateral fv cr ts md now = .error .alreadyExists ∧
       commit s (BondToken.IssueBond s bondID issuerID issuerName currency
         isin rating collateral fv cr ts md now) = s) ∧
    (∀ (s : Compliance.CState) (a ct : String) (rs : Int) (det : String)
       (now : Nat),
       (Compliance.CreateAMLCheck s a ct rs det now).isOk = true) ∧
    (∀ (s : CorporateAction.CAState) (bondID d : String) (amt : Rat)
       (tag : String) (pd : Date),
       parseDate d = some pd →
       CorporateAction.CreateCouponPayment s bondID d amt tag =
         .ok (setKey s ("COUPON_" ++ bondID ++ "_" ++ tag) (.coupon
           { id := "COUPON_" ++ bondID ++ "_" ++ tag, bondId := bondID
             paymentDate := pd, amount := amt, status := "PENDING"
             paidAt := 0, txId := "", metadata := [] }))) ∧
    (∀ (s : CorporateAction.CAState) (bondID d : String) (amt : Rat)
       (tag : String) (pd : Date),
       parseDate d = some pd →
       CorporateAction.CreateRedemption s bondID d amt tag =
         .ok (setKey s ("REDEMPTION_" ++ bondID ++ "_" ++ tag) (.redemption
           { id := "REDEMPTION_" ++ bondID ++ "_" ++ tag, bondId := bondID
             redemptionDate := pd, amount := amt, status := "PENDING"
             completedAt := 0, txId := "", metadata := [] }))) := by
  refine ⟨?_, ?_, ?_, ?_, ?_⟩
  · intro s a fn dob nat idt idn now hex
    have herr : Compliance.CreateKYC s a fn dob nat idt idn now =
        .error .alreadyExists := by
      simp [Compliance.CreateKYC, hex]
    exact ⟨herr, by simp [commit, herr]⟩
  · intro s bondID issuerID issuerName currency isin rating collateral
      fv cr ts md now hex
    have herr : BondToken.IssueBond s bondID issuerID issuerName currency
        isin rating collateral fv cr ts md now = .error .alreadyExists := by
      simp [BondToken.IssueBond, hex]
    exact ⟨herr, by simp [commit, herr]⟩
  · intro s a ct rs det now
    rfl
  · intro s bondID d amt tag pd hpd
    simp [CorporateAction.CreateCouponPayment, hpd]
  · intro s bondID d amt tag pd hpd
    simp [CorporateAction.CreateRedemption, hpd]

/-- Witness for C7's amended claim: a second CreateKYC for alice fails
AlreadyExists and commits nothing. -/
theorem create_guard_amended_witness :
    Compliance.CreateKYC kycLedger1 "alice" "Alice Johnson" "1990-01-01"
      "US" "PASSPORT" "US123456" 4 = .error .alreadyExists ∧
    commit kycLedger1
      (Compliance.CreateKYC kycLedger1 "alice" "Alice Johnson" "1990-01-01"
        "US" "PASSPORT" "US123456" 4) = kycLedger1 :=
  create_guard_amended.1 kycLedger1 "alice" "Alice Johnson" "1990-01-01"
    "US" "PASSPORT" "US123456" 4 (by decide)
